import Mathlib

/-!
Shallow embedding of the curation pipeline of loopfactory-agi-os
(src/components/curation/feature_extractor.py,
src/components/curation/quality_scorer.py, src/main.py) and proofs of the
spec claims about it.

Modelling conventions:
* Python floats are modelled as exact rationals (ℚ); decimal literals such
  as 0.25 denote the corresponding rational.
* Python dicts with string keys are modelled as association lists; a dict
  comprehension that overwrites duplicate keys is modelled by a
  last-entry-wins lookup.
* Code that can raise is modelled with Except String; a raised exception is
  Except.error with a message naming the Python exception.
* Text handling is modelled over the ASCII fragment used by the source
  (keyword tables, metadata fields); Char.toLower and Char.isDigit agree
  with Python str.lower / regex \d there.
-/

/-- Whitespace characters recognised by Python str.split() and str.strip()
on ASCII text. -/
def pyIsSpace (c : Char) : Bool :=
  c == ' ' || c == '\t' || c == '\n' || c == '\r' || c == '\x0b' || c == '\x0c'

/-- Helper for substring search: does the second char list start with the
first one. -/
def charsHasPrefix : List Char → List Char → Bool
  | [], _ => true
  | _ :: _, [] => false
  | c :: cs, d :: ds => c == d && charsHasPrefix cs ds

/-- Python substring containment (the `in` operator on str), over char
lists: does the second list contain the first as a contiguous run. -/
def charsContains (needle : List Char) : List Char → Bool
  | [] => needle.isEmpty
  | c :: cs => charsHasPrefix needle (c :: cs) || charsContains needle cs

/-- Python `needle in hay` for strings. -/
def strContains (hay needle : String) : Bool :=
  charsContains needle.toList hay.toList

/-- Python str.lower() (ASCII model). -/
def pyLowerStr (s : String) : String :=
  String.mk (s.toList.map Char.toLower)

/-- Accumulator-based worker for Python str.split() with no argument:
split on whitespace runs, dropping empty pieces. -/
def pySplitWsAux : List Char → List Char → List String
  | [], acc => if acc.isEmpty then [] else [String.mk acc.reverse]
  | c :: cs, acc =>
    if pyIsSpace c then
      if acc.isEmpty then pySplitWsAux cs []
      else String.mk acc.reverse :: pySplitWsAux cs []
    else pySplitWsAux cs (c :: acc)

/-- Python str.split() with no argument. -/
def pySplitWs (s : String) : List String :=
  pySplitWsAux s.toList []

/-- Accumulator-based worker for Python str.split(sep) with a one-character
separator: split at every separator occurrence, keeping empty pieces. -/
def pySplitOnCharAux (sep : Char) : List Char → List Char → List String
  | [], acc => [String.mk acc.reverse]
  | c :: cs, acc =>
    if c == sep then String.mk acc.reverse :: pySplitOnCharAux sep cs []
    else pySplitOnCharAux sep cs (c :: acc)

/-- Python str.split(sep) for a one-character separator. -/
def pySplitOnChar (sep : Char) (s : String) : List String :=
  pySplitOnCharAux sep s.toList []

/-- Value of a digit-only char list read as a decimal number
(Python int() on a digit string). -/
def digitsToNat (cs : List Char) : Nat :=
  cs.foldl (fun n c => n * 10 + (c.toNat - '0'.toNat)) 0

/-- Python str.isdigit() (ASCII model): nonempty and all digits. -/
def pyIsDigitStr (s : String) : Bool :=
  !s.isEmpty && s.toList.all Char.isDigit

/-- Lookup in a metadata mapping with a default, Python dict.get(k, d). -/
def metaGet (m : List (String × String)) (k d : String) : String :=
  match m.find? (fun p => p.1 == k) with
  | some p => p.2
  | none => d

/-- Stable insertion (descending by key) used to model Python
sorted(..., reverse=True): the new element goes before the first strictly
smaller key and after every earlier element with an equal or larger key
processed later in the recursion, which preserves original order on ties. -/
def insertByDesc (key : α → Nat) (x : α) : List α → List α
  | [] => [x]
  | y :: ys => if key y ≤ key x then x :: y :: ys else y :: insertByDesc key x ys

/-- Stable sort, descending by key: models Python
sorted(items, key, reverse=True). -/
def sortByDesc (key : α → Nat) : List α → List α
  | [] => []
  | x :: xs => insertByDesc key x (sortByDesc key xs)

/-!
CodeAnalyzer (feature_extractor.py lines 84-140).
-/

/-- Kind of a Python AST node, as distinguished by the isinstance tests in
CodeAnalyzer.calculate_complexity; every other node kind is `other`. -/
inductive PyKind where
  | functionDef
  | classDef
  | forStmt
  | whileStmt
  | ifStmt
  | tryStmt
  | other
deriving Repr, DecidableEq

/-- Weight contributed by one walked AST node to the weighted complexity
sum of calculate_complexity: functions 2, classes 3, loops (For and While)
1.5, conditionals 1, try blocks 2. -/
def kindWeight : PyKind → ℚ
  | .functionDef => 2
  | .classDef => 3
  | .forStmt => 1.5
  | .whileStmt => 1.5
  | .ifStmt => 1
  | .tryStmt => 2
  | .other => 0

/-- CodeAnalyzer.detect_language: first-match-wins surface heuristics. -/
def detect_language (code : String) : String :=
  if strContains code "import " || strContains code "def " || strContains code "class " then
    "python"
  else if strContains code "function" && (strContains code "\x7b" || strContains code "=>") then
    "javascript"
  else if strContains code "public class" || strContains code "private " then
    "java"
  else if strContains code "#include" || strContains code "int main" then
    "c++"
  else
    "unknown"

/-- CodeAnalyzer.count_lines: number of lines with at least one
non-whitespace character (lines where Python l.strip() is truthy). -/
def count_lines (code : String) : Nat :=
  ((pySplitOnChar '\n' code).filter (fun l => l.toList.any (fun c => !(pyIsSpace c)))).length

/-- CodeAnalyzer.calculate_complexity. ast.parse is modelled by the
`parse` oracle: `some nodes` is a successful parse, where `nodes` lists the
kinds of all nodes yielded by ast.walk on the parsed tree; `none` is a
SyntaxError. The weighted sum over walked nodes is divided by 50 and
clamped to 1; a non-python language or a failed parse falls back to
min(non-empty-line-count / 100, 1). Totality of this definition models the
function never raising. -/
def calculate_complexity (parse : String → Option (List PyKind))
    (code language : String) : ℚ :=
  if language != "python" then
    min ((count_lines code : ℚ) / 100) 1
  else
    match parse code with
    | some nodes => min (((nodes.map kindWeight).sum) / 50) 1
    | none => min ((count_lines code : ℚ) / 100) 1

/-!
TextAnalyzer (feature_extractor.py lines 143-227).
-/

/-- TextAnalyzer.CATEGORIES, in dict insertion order. -/
def CATEGORIES : List (String × List String) :=
  [("web_scraping", ["scrape", "scraping", "crawler", "spider", "beautifulsoup", "selenium"]),
   ("data_processing", ["pandas", "numpy", "data", "csv", "excel", "dataframe"]),
   ("api_wrapper", ["api", "rest", "endpoint", "wrapper", "client", "sdk"]),
   ("automation", ["automate", "automation", "workflow", "task", "schedule"]),
   ("bot", ["bot", "chatbot", "telegram", "discord", "slack"]),
   ("ml_ai", ["machine learning", "ai", "neural", "model", "training", "tensorflow", "pytorch"]),
   ("web_dev", ["flask", "django", "fastapi", "web", "server", "frontend"]),
   ("devops", ["docker", "kubernetes", "ci/cd", "deployment", "infrastructure"]),
   ("security", ["security", "encryption", "authentication", "oauth", "jwt"]),
   ("testing", ["test", "testing", "pytest", "unittest", "qa"])]

/-- TextAnalyzer.COMPLEXITY_KEYWORDS, in dict insertion order. -/
def COMPLEXITY_KEYWORDS : List (String × List String) :=
  [("beginner", ["simple", "basic", "beginner", "tutorial", "learn", "intro"]),
   ("intermediate", ["intermediate", "moderate", "practical", "real-world"]),
   ("advanced", ["advanced", "complex", "production", "scalable", "enterprise"])]

/-- Stop words removed by TextAnalyzer.extract_keywords. -/
def stop_words : List String :=
  ["the", "and", "for", "with", "this", "that", "from", "have", "are", "was"]

/-- Word character for the regex word boundaries in extract_keywords (the
text has already been lowercased). -/
def isWordChar (c : Char) : Bool :=
  ('a' ≤ c && c ≤ 'z') || ('0' ≤ c && c ≤ '9') || c == '_'

/-- Accumulator-based worker splitting a char list into maximal runs of
word characters. -/
def wordRunsAux : List Char → List Char → List String
  | [], acc => if acc.isEmpty then [] else [String.mk acc.reverse]
  | c :: cs, acc =>
    if isWordChar c then wordRunsAux cs (c :: acc)
    else if acc.isEmpty then wordRunsAux cs []
    else String.mk acc.reverse :: wordRunsAux cs []

/-- Tokens produced by re.findall of a lowercase-letter word of length at
least 3 between word boundaries, on an already lowercased text: the
maximal word-character runs that consist solely of letters a-z and have
length at least 3. -/
def findallLowerWords (s : String) : List String :=
  (wordRunsAux s.toList []).filter
    (fun t => 3 ≤ t.length && t.toList.all (fun c => 'a' ≤ c && c ≤ 'z'))

/-- Increment the count of a word in an insertion-ordered counter
(collections.Counter preserves first-insertion order). -/
def bumpCount : List (String × Nat) → String → List (String × Nat)
  | [], w => [(w, 1)]
  | (x, n) :: rest, w =>
    if x == w then (x, n + 1) :: rest else (x, n) :: bumpCount rest w

/-- Insertion-ordered word counts, modelling collections.Counter(words). -/
def countOcc (words : List String) : List (String × Nat) :=
  words.foldl bumpCount []

/-- TextAnalyzer.extract_keywords: lowercase, tokenize, drop stop words,
count, return the max_keywords most frequent words (Counter.most_common is
equivalent to a stable descending sort by count); max_keywords defaults to
10 in the source and callers pass that value here. -/
def extract_keywords (text : String) (max_keywords : Nat) : List String :=
  let words := (findallLowerWords (pyLowerStr text)).filter
    (fun w => !(stop_words.contains w))
  ((sortByDesc (fun p => p.2) (countOcc words)).take max_keywords).map Prod.fst

/-- Per-category keyword hit counts for TextAnalyzer.categorize: the
categories whose score is positive, in taxonomy order (the order
category_scores is populated). -/
def categoryScores (text_lower : String) : List (String × Nat) :=
  (CATEGORIES.map
    (fun p => (p.1, (p.2.filter (fun kw => strContains text_lower kw)).length))).filter
    (fun p => 0 < p.2)

/-- TextAnalyzer.categorize: no positive category yields ("general", []);
otherwise a stable descending sort by score, primary the top category and
secondary the next up to 3. -/
def categorize (text : String) : String × List String :=
  let scores := categoryScores (pyLowerStr text)
  match sortByDesc (fun p => p.2) scores with
  | [] => ("general", [])
  | top :: rest => (top.1, (rest.take 3).map Prod.fst)

/-- TextAnalyzer.detect_complexity_level: first tier with a keyword hit,
in the order beginner, intermediate, advanced; default intermediate. -/
def detect_complexity_level (text : String) : String :=
  let tl := pyLowerStr text
  match COMPLEXITY_KEYWORDS.find? (fun p => p.2.any (fun kw => strContains tl kw)) with
  | some p => p.1
  | none => "intermediate"

/-- TextAnalyzer.has_tutorial_indicators. -/
def has_tutorial_indicators (text : String) : Bool :=
  let tl := pyLowerStr text
  ["tutorial", "how to", "guide", "step by step", "learn", "walkthrough"].any
    (fun kw => strContains tl kw)

/-- TextAnalyzer.has_documentation_indicators. -/
def has_documentation_indicators (text : String) : Bool :=
  let tl := pyLowerStr text
  ["documentation", "docs", "readme", "api reference", "manual"].any
    (fun kw => strContains tl kw)

/-!
QualityScorer signal estimators (feature_extractor.py lines 230-281).
-/

/-- Digits kept by re.sub stripping every non-digit character from a
token, read as a number (Python int, with the `or` fallback to 0 when no
digit remains). -/
def starsOfToken (tok : String) : Nat :=
  let digits := tok.toList.filter Char.isDigit
  if digits.isEmpty then 0 else digitsToNat digits

/-- Upvote count parsed by the reddit branch: Python
`int(upvotes_text) if upvotes_text.isdigit() else 0`. -/
def upvotesOf (upvotes_text : String) : Nat :=
  if pyIsDigitStr upvotes_text then digitsToNat upvotes_text.toList else 0

/-- QualityScorer.calculate_popularity_score. The github branch takes the
first whitespace token of the stars string; on an empty token list (stars
string empty or all whitespace) the subscript [0] raises IndexError,
modelled as Except.error. -/
def calculate_popularity_score (metadata : List (String × String))
    (source_type : String) : Except String ℚ :=
  if source_type == "github" then
    let stars_text := metaGet metadata "stars" "0"
    match pySplitWs stars_text with
    | [] => Except.error "IndexError: list index out of range"
    | tok :: _ => Except.ok (min ((starsOfToken tok : ℚ) / 1000) 1)
  else if source_type == "reddit" then
    let upvotes_text := metaGet metadata "upvotes" "0"
    Except.ok (min ((upvotesOf upvotes_text : ℚ) / 100) 1)
  else
    Except.ok 0.5

/-- QualityScorer.calculate_author_reputation: 0.3 for the blocklist
(AutoModerator, unknown, empty), 0.6 otherwise; source_type unused. -/
def calculate_author_reputation (metadata : List (String × String))
    (source_type : String) : ℚ :=
  let author := metaGet metadata "author" ""
  if author == "AutoModerator" || author == "unknown" || author == "" then 0.3
  else 0.6

/-- QualityScorer.calculate_recency_score: the documented placeholder,
1.0 unconditionally. -/
def calculate_recency_score (timestamp : String) : ℚ := 1

/-- QualityScorer.estimate_value, applied to the value signals (in
extract_features the feature dict always carries all four keys, so the
dict-get defaults of the source are never consulted). -/
def estimate_value (popularity_score code_complexity author_reputation : ℚ)
    (has_code : Bool) : ℚ :=
  min (popularity_score * 0.3 + code_complexity * 0.2 + author_reputation * 0.2 +
        (if has_code then 1 else 0.3) * 0.3) 1

/-!
FeatureExtractor (feature_extractor.py lines 22-81 and 284-391).
-/

/-- ExtractedFeatures dataclass. -/
structure ExtractedFeatures where
  loop_id : String
  source_url : String
  source_type : String
  has_code : Bool
  code_language : Option String
  code_complexity : ℚ
  code_lines : Nat
  title_length : Nat
  description_length : Nat
  has_tutorial : Bool
  has_documentation : Bool
  popularity_score : ℚ
  author_reputation : ℚ
  recency_score : ℚ
  primary_category : String
  secondary_categories : List String
  keywords : List String
  automation_type : String
  complexity_level : String
  estimated_value : ℚ
deriving Repr, DecidableEq

/-- Discovery record with all required fields present (the schema the
discovery collaborator produces). -/
structure Discovery where
  source_url : String
  source_type : String
  content_type : String
  raw_content : String
  metadata : List (String × String)
  discovery_timestamp : String
deriving Repr, DecidableEq

/-- FeatureExtractor.extract_features on a well-formed discovery record.
pyHash models the Python built-in hash on strings, which depends on the
per-process PYTHONHASHSEED; parse models ast.parse as in
calculate_complexity. The only fallible step is
calculate_popularity_score; its IndexError propagates. -/
def extract_features (parse : String → Option (List PyKind))
    (pyHash : String → Int) (d : Discovery) : Except String ExtractedFeatures :=
  let loop_id := d.source_type ++ "_" ++ toString ((pyHash d.source_url).emod 1000000)
  let title := metaGet d.metadata "title" ""
  let description := d.raw_content
  let full_text := title ++ " " ++ description
  let has_code := decide (100 < description.length) &&
    (strContains description "def " || strContains description "import " ||
     strContains description "class " || strContains description "function")
  let code_language : Option String :=
    if has_code then some (detect_language description) else none
  let code_complexity :=
    if has_code then calculate_complexity parse description (code_language.getD "unknown")
    else 0
  let code_lines := if has_code then count_lines description else 0
  let title_length := title.length
  let description_length := description.length
  let has_tutorial := has_tutorial_indicators full_text
  let has_documentation := has_documentation_indicators full_text
  let keywords := extract_keywords full_text 10
  let cat := categorize full_text
  let complexity_level := detect_complexity_level full_text
  match calculate_popularity_score d.metadata d.source_type with
  | Except.error e => Except.error e
  | Except.ok popularity_score =>
    let author_reputation := calculate_author_reputation d.metadata d.source_type
    let recency_score := calculate_recency_score d.discovery_timestamp
    let automation_type :=
      if (CATEGORIES.map Prod.fst).contains cat.1 then cat.1 else "general"
    let estimated_value :=
      estimate_value popularity_score code_complexity author_reputation has_code
    Except.ok
      { loop_id := loop_id
        source_url := d.source_url
        source_type := d.source_type
        has_code := has_code
        code_language := code_language
        code_complexity := code_complexity
        code_lines := code_lines
        title_length := title_length
        description_length := description_length
        has_tutorial := has_tutorial
        has_documentation := has_documentation
        popularity_score := popularity_score
        author_reputation := author_reputation
        recency_score := recency_score
        primary_category := cat.1
        secondary_categories := cat.2
        keywords := keywords
        automation_type := automation_type
        complexity_level := complexity_level
        estimated_value := estimated_value }

/-- Raw JSON discovery object: each field the source subscripts may be
missing. content_type is never accessed by the extractor; raw_content is
read with dict.get and defaults to the empty string. -/
structure RawDiscovery where
  source_url : Option String
  source_type : Option String
  content_type : Option String
  raw_content : Option String
  metadata : Option (List (String × String))
  discovery_timestamp : Option String
deriving Repr, DecidableEq

/-- Python dict subscript on a possibly missing key: raises KeyError when
absent. -/
def getRequired (o : Option α) (field : String) : Except String α :=
  match o with
  | some v => Except.ok v
  | none => Except.error ("KeyError: " ++ field)

/-- extract_features as invoked by the batch loop, on a raw discovery
object: a missing required field raises KeyError before any feature is
produced. -/
def extract_features_raw (parse : String → Option (List PyKind))
    (pyHash : String → Int) (d : RawDiscovery) : Except String ExtractedFeatures := do
  let source_type ← getRequired d.source_type "source_type"
  let source_url ← getRequired d.source_url "source_url"
  let metadata ← getRequired d.metadata "metadata"
  let discovery_timestamp ← getRequired d.discovery_timestamp "discovery_timestamp"
  extract_features parse pyHash
    { source_url := source_url
      source_type := source_type
      content_type := d.content_type.getD ""
      raw_content := d.raw_content.getD ""
      metadata := metadata
      discovery_timestamp := discovery_timestamp }

/-- FeatureExtractor.process_discoveries: per-item try/except — a failing
item contributes a logged error (second component) and is skipped, the
batch continues; successful feature records are returned in input order. -/
def process_discoveries (parse : String → Option (List PyKind))
    (pyHash : String → Int) : List RawDiscovery → List ExtractedFeatures × List String
  | [] => ([], [])
  | d :: ds =>
    match extract_features_raw parse pyHash d with
    | Except.ok f =>
      let r := process_discoveries parse pyHash ds
      (f :: r.1, r.2)
    | Except.error e =>
      let r := process_discoveries parse pyHash ds
      (r.1, e :: r.2)

/-!
HeuristicQualityScorer (quality_scorer.py).
-/

/-- HeuristicQualityScorer.WEIGHTS, in dict insertion order. -/
def WEIGHTS : List (String × ℚ) :=
  [("popularity", 0.25),
   ("code_quality", 0.20),
   ("content_quality", 0.20),
   ("categorization", 0.15),
   ("recency", 0.10),
   ("author", 0.10)]

/-- Weight lookup self.WEIGHTS[k] (every key used by score_loop is
present, so the default is never consulted). -/
def weightOf (k : String) : ℚ :=
  ((WEIGHTS.find? (fun p => p.1 == k)).map Prod.snd).getD 0

/-- HeuristicQualityScorer.APPROVAL_THRESHOLD. -/
def APPROVAL_THRESHOLD : ℚ := 0.60

/-- HeuristicQualityScorer.REJECTION_THRESHOLD. -/
def REJECTION_THRESHOLD : ℚ := 0.35

/-- Running per-instance counters of the scorer. -/
structure ScorerState where
  approved_count : Nat
  rejected_count : Nat
  review_count : Nat
deriving Repr, DecidableEq

/-- HeuristicQualityScorer.__init__. The class attributes WEIGHTS and the
two thresholds are passed as parameters to express what __init__ does with
them: nothing — it unconditionally initialises the three counters to zero
and succeeds, performing no validation of the weights or thresholds. -/
def scorer_init (weights : List (String × ℚ)) (approval_threshold rejection_threshold : ℚ) :
    Except String ScorerState :=
  Except.ok { approved_count := 0, rejected_count := 0, review_count := 0 }

/-- Feature fields read by score_loop (the scorer view of a feature
record). -/
structure Features where
  loop_id : String
  popularity_score : ℚ
  has_code : Bool
  code_complexity : ℚ
  code_lines : Nat
  description_length : Nat
  has_tutorial : Bool
  has_documentation : Bool
  primary_category : String
  recency_score : ℚ
  author_reputation : ℚ
deriving Repr, DecidableEq

/-- Entries of the reasoning list of score_loop. Each constructor stands
for one f-string the source appends, carrying the interpolated values. -/
inductive Reason where
  | highPopularity (score : ℚ)
  | lowPopularity (score : ℚ)
  | containsCode (complexity : ℚ)
  | noCode
  | detailedDescription
  | veryShortDescription
  | hasTutorialContent
  | hasDocumentation
  | highValueCategory (category : String)
  | generalCategory
  | overallSummary (score : ℚ) (decision : String)
deriving Repr, DecidableEq

/-- QualityScore dataclass; reasoning entries are modelled by Reason. -/
structure QualityScore where
  loop_id : String
  overall_score : ℚ
  approval_decision : String
  confidence : ℚ
  reasoning : List Reason
deriving Repr, DecidableEq

/-- High-value categories of the categorization sub-score. -/
def high_value_categories : List String :=
  ["automation", "web_scraping", "api_wrapper", "bot", "data_processing"]

/-- Code-quality sub-score (score_loop step 2). -/
def code_quality_score (f : Features) : ℚ :=
  if f.has_code then
    min (f.code_complexity * 0.6 + min ((f.code_lines : ℚ) / 100) 1 * 0.4) 1
  else 0.3

/-- Content-quality sub-score (score_loop step 3): base by description
length, plus tutorial and documentation bonuses, clamped to 1. -/
def content_quality_score (f : Features) : ℚ :=
  min ((if 200 ≤ f.description_length then 0.4
        else if f.description_length < 50 then 0.1
        else 0.25) +
       (if f.has_tutorial then 0.3 else 0) +
       (if f.has_documentation then 0.3 else 0)) 1

/-- Categorization sub-score (score_loop step 4). -/
def categorization_score (f : Features) : ℚ :=
  if high_value_categories.contains f.primary_category then 0.8
  else if f.primary_category == "general" then 0.3
  else 0.5

/-- Overall score of score_loop: the weighted sum of the six sub-scores. -/
def overall_of (f : Features) : ℚ :=
  weightOf "popularity" * f.popularity_score +
  weightOf "code_quality" * code_quality_score f +
  weightOf "content_quality" * content_quality_score f +
  weightOf "categorization" * categorization_score f +
  weightOf "recency" * f.recency_score +
  weightOf "author" * f.author_reputation

/-- Reasoning list of score_loop, in the order the source appends:
popularity notability, code presence, description length tier, tutorial,
documentation, category notability, final summary. -/
def reasoning_of (f : Features) (overall : ℚ) (decision : String) : List Reason :=
  (if 0.7 ≤ f.popularity_score then [Reason.highPopularity f.popularity_score]
   else if f.popularity_score ≤ 0.2 then [Reason.lowPopularity f.popularity_score]
   else []) ++
  (if f.has_code then [Reason.containsCode f.code_complexity] else [Reason.noCode]) ++
  (if 200 ≤ f.description_length then [Reason.detailedDescription]
   else if f.description_length < 50 then [Reason.veryShortDescription]
   else []) ++
  (if f.has_tutorial then [Reason.hasTutorialContent] else []) ++
  (if f.has_documentation then [Reason.hasDocumentation] else []) ++
  (if high_value_categories.contains f.primary_category
   then [Reason.highValueCategory f.primary_category]
   else if f.primary_category == "general" then [Reason.generalCategory]
   else []) ++
  [Reason.overallSummary overall decision]

/-- HeuristicQualityScorer.score_loop: scores one feature record and
updates the matching running counter on the instance. -/
def score_loop (st : ScorerState) (f : Features) : QualityScore × ScorerState :=
  let overall_score := overall_of f
  let dcs : String × ℚ × ScorerState :=
    if APPROVAL_THRESHOLD ≤ overall_score then
      ("approved",
       min ((overall_score - APPROVAL_THRESHOLD) / (1 - APPROVAL_THRESHOLD)) 1,
       { st with approved_count := st.approved_count + 1 })
    else if overall_score < REJECTION_THRESHOLD then
      ("rejected",
       min ((REJECTION_THRESHOLD - overall_score) / REJECTION_THRESHOLD) 1,
       { st with rejected_count := st.rejected_count + 1 })
    else
      ("needs_review", 0.5, { st with review_count := st.review_count + 1 })
  ({ loop_id := f.loop_id
     overall_score := overall_score
     approval_decision := dcs.1
     confidence := dcs.2.1
     reasoning := reasoning_of f overall_score dcs.1 },
   dcs.2.2)

/-- Raw JSON feature object as read by score_all_loops: every field
score_loop subscripts may be missing. -/
structure RawFeatures where
  loop_id : Option String
  popularity_score : Option ℚ
  has_code : Option Bool
  code_complexity : Option ℚ
  code_lines : Option Nat
  description_length : Option Nat
  has_tutorial : Option Bool
  has_documentation : Option Bool
  primary_category : Option String
  recency_score : Option ℚ
  author_reputation : Option ℚ
deriving Repr, DecidableEq

/-- Field accesses score_loop performs on a raw feature object: a missing
subscripted field raises KeyError (before any counter is updated).
code_complexity and code_lines are only subscripted when has_code is true;
when it is false score_loop never reads them, so 0 is passed in their
place. -/
def parseFeatures (rf : RawFeatures) : Except String Features := do
  let loop_id ← getRequired rf.loop_id "loop_id"
  let popularity_score ← getRequired rf.popularity_score "popularity_score"
  let has_code ← getRequired rf.has_code "has_code"
  let code_complexity ←
    if has_code then getRequired rf.code_complexity "code_complexity" else pure 0
  let code_lines ←
    if has_code then getRequired rf.code_lines "code_lines" else pure 0
  let description_length ← getRequired rf.description_length "description_length"
  let has_tutorial ← getRequired rf.has_tutorial "has_tutorial"
  let has_documentation ← getRequired rf.has_documentation "has_documentation"
  let primary_category ← getRequired rf.primary_category "primary_category"
  let recency_score ← getRequired rf.recency_score "recency_score"
  let author_reputation ← getRequired rf.author_reputation "author_reputation"
  pure
    { loop_id := loop_id
      popularity_score := popularity_score
      has_code := has_code
      code_complexity := code_complexity
      code_lines := code_lines
      description_length := description_length
      has_tutorial := has_tutorial
      has_documentation := has_documentation
      primary_category := primary_category
      recency_score := recency_score
      author_reputation := author_reputation }

/-- score_loop as invoked by the batch loop, on a raw feature object:
subscript the fields (KeyError on a missing one), then score. -/
def score_loop_raw (st : ScorerState) (rf : RawFeatures) :
    Except String (QualityScore × ScorerState) :=
  Except.map (score_loop st) (parseFeatures rf)

/-- HeuristicQualityScorer.score_all_loops: per-item try/except — a
failing item contributes a logged error (second component) and is skipped
with the counters unchanged; scores are returned in input order together
with the final counter state. -/
def score_all_loops (st : ScorerState) :
    List RawFeatures → List QualityScore × List String × ScorerState
  | [] => ([], [], st)
  | rf :: rest =>
    match score_loop_raw st rf with
    | Except.ok qs =>
      let r := score_all_loops qs.2 rest
      (qs.1 :: r.1, r.2.1, r.2.2)
    | Except.error e =>
      let r := score_all_loops st rest
      (r.1, e :: r.2.1, r.2.2)

/-!
AGIOSPipeline.filter_approved_loops (main.py lines 95-144).
-/

/-- Python int() on a string (ASCII decimal model): optional sign before
digits, surrounding whitespace stripped; anything else raises ValueError. -/
def pyIntOfString (s : String) : Except String Int :=
  let t := (s.toList.dropWhile pyIsSpace).reverse.dropWhile pyIsSpace |>.reverse
  match t with
  | '-' :: rest =>
    if !rest.isEmpty && rest.all Char.isDigit then Except.ok (-(digitsToNat rest : Int))
    else Except.error "ValueError: invalid literal for int"
  | '+' :: rest =>
    if !rest.isEmpty && rest.all Char.isDigit then Except.ok (digitsToNat rest : Int)
    else Except.error "ValueError: invalid literal for int"
  | rest =>
    if !rest.isEmpty && rest.all Char.isDigit then Except.ok (digitsToNat rest : Int)
    else Except.error "ValueError: invalid literal for int"

/-- Lookup in the dict comprehension features_by_id: later records with
the same loop_id overwrite earlier ones. -/
def featuresById (fs : List ExtractedFeatures) (k : String) : Option ExtractedFeatures :=
  fs.foldl (fun acc f => if f.loop_id == k then some f else acc) none

/-- Approved-loop bundle assembled by filter_approved_loops; the discovery
slot may be None. -/
structure ApprovedLoop where
  loop_id : String
  score : QualityScore
  features : ExtractedFeatures
  discovery : Option Discovery
deriving Repr, DecidableEq

/-- AGIOSPipeline.filter_approved_loops, over already loaded collections:
keeps approved scores only; an approved score whose loop_id is absent from
features_by_id is dropped with no log and no error; for a kept score the
original discovery is searched by recomputing hash(source_url) % 1000000
and comparing it with the numeric part of the loop_id, and the bundle is
emitted even when no discovery matches (discovery = none). The int() call
on the loop_id fragment after the first underscore can raise ValueError,
which aborts the whole function (Except.error). -/
def filter_approved_loops (pyHash : String → Int)
    (features : List ExtractedFeatures) (discoveries : List Discovery) :
    List QualityScore → Except String (List ApprovedLoop)
  | [] => Except.ok []
  | s :: rest =>
    if s.approval_decision == "approved" then
      match featuresById features s.loop_id with
      | some feature =>
        match (pySplitOnChar '_' s.loop_id).get? 1 with
        | none => Except.error "IndexError: list index out of range"
        | some fragment =>
          match pyIntOfString fragment with
          | Except.error e => Except.error e
          | Except.ok n =>
            let discovery :=
              discoveries.find? (fun d => (pyHash d.source_url).emod 1000000 == n)
            match filter_approved_loops pyHash features discoveries rest with
            | Except.error e => Except.error e
            | Except.ok r =>
              Except.ok ({ loop_id := s.loop_id, score := s,
                           features := feature, discovery := discovery } :: r)
      | none => filter_approved_loops pyHash features discoveries rest
    else filter_approved_loops pyHash features discoveries rest

/-!
Helper lemmas about score_loop.
-/

/-- Decision as a function of the overall score alone (proof-layer
characterisation of the if-chain of score_loop). -/
def decision_of (o : ℚ) : String :=
  if APPROVAL_THRESHOLD ≤ o then "approved"
  else if o < REJECTION_THRESHOLD then "rejected"
  else "needs_review"

/-- Confidence as a function of the overall score alone. -/
def confidence_of (o : ℚ) : ℚ :=
  if APPROVAL_THRESHOLD ≤ o then
    min ((o - APPROVAL_THRESHOLD) / (1 - APPROVAL_THRESHOLD)) 1
  else if o < REJECTION_THRESHOLD then
    min ((REJECTION_THRESHOLD - o) / REJECTION_THRESHOLD) 1
  else 0.5

theorem score_loop_fst (st : ScorerState) (f : Features) :
    (score_loop st f).1 =
      { loop_id := f.loop_id
        overall_score := overall_of f
        approval_decision := decision_of (overall_of f)
        confidence := confidence_of (overall_of f)
        reasoning := reasoning_of f (overall_of f) (decision_of (overall_of f)) } := by
  simp only [score_loop, decision_of, confidence_of]
  split_ifs <;> rfl

theorem weightOf_values :
    weightOf "popularity" = 0.25 ∧ weightOf "code_quality" = 0.20 ∧
    weightOf "content_quality" = 0.20 ∧ weightOf "categorization" = 0.15 ∧
    weightOf "recency" = 0.10 ∧ weightOf "author" = 0.10 := by
  refine ⟨rfl, rfl, rfl, rfl, rfl, rfl⟩

/-- C1: score_loop partitions decisions exhaustively and exclusively by
the overall score against the two fixed thresholds, with the claimed
confidence in each branch: approved iff overall ≥ 0.60 with confidence
min((overall-0.60)/0.40, 1), rejected iff overall < 0.35 with confidence
min((0.35-overall)/0.35, 1), needs_review exactly on [0.35, 0.60) with
confidence 0.5; exactly one decision applies to any overall score. -/
theorem C1_decision_partition (st : ScorerState) (f : Features) :
    ((score_loop st f).1.approval_decision = "approved" ∨
     (score_loop st f).1.approval_decision = "rejected" ∨
     (score_loop st f).1.approval_decision = "needs_review") ∧
    ((score_loop st f).1.approval_decision = "approved" ↔
      (0.60 : ℚ) ≤ (score_loop st f).1.overall_score) ∧
    ((score_loop st f).1.approval_decision = "rejected" ↔
      (score_loop st f).1.overall_score < (0.35 : ℚ)) ∧
    ((score_loop st f).1.approval_decision = "needs_review" ↔
      ((0.35 : ℚ) ≤ (score_loop st f).1.overall_score ∧
       (score_loop st f).1.overall_score < (0.60 : ℚ))) ∧
    ((score_loop st f).1.approval_decision = "approved" →
      (score_loop st f).1.confidence =
        min (((score_loop st f).1.overall_score - 0.60) / 0.40) 1) ∧
    ((score_loop st f).1.approval_decision = "rejected" →
      (score_loop st f).1.confidence =
        min (((0.35 : ℚ) - (score_loop st f).1.overall_score) / 0.35) 1) ∧
    ((score_loop st f).1.approval_decision = "needs_review" →
      (score_loop st f).1.confidence = 0.5) := by
  rw [score_loop_fst]
  simp only [decision_of, confidence_of, APPROVAL_THRESHOLD, REJECTION_THRESHOLD]
  split_ifs with h1 h2 <;>
    refine ⟨by simp, ?_, ?_, ?_, ?_, ?_, ?_⟩ <;>
    simp_all <;> linarith

/-- C7: the quality-score record returned by score_loop is independent of
the running counters: two calls on the same feature record return equal
results whatever the counter state. -/
theorem C7_counter_independence (st st' : ScorerState) (f : Features) :
    (score_loop st f).1 = (score_loop st' f).1 := by
  rw [score_loop_fst, score_loop_fst]

/-- Feature record driving score_loop into the approved branch, used by
witnesses. -/
def featApproved : Features :=
  { loop_id := "github_1"
    popularity_score := 1
    has_code := true
    code_complexity := 1
    code_lines := 100
    description_length := 300
    has_tutorial := true
    has_documentation := true
    primary_category := "automation"
    recency_score := 1
    author_reputation := 1 }

theorem C1_decision_partition_witness :
    (score_loop ⟨0, 0, 0⟩ featApproved).1.approval_decision = "approved" ∧
    (score_loop ⟨0, 0, 0⟩ featApproved).1.confidence =
      min (((score_loop ⟨0, 0, 0⟩ featApproved).1.overall_score - 0.60) / 0.40) 1 := by
  have h := C1_decision_partition ⟨0, 0, 0⟩ featApproved
  have hov : (score_loop ⟨0, 0, 0⟩ featApproved).1.overall_score = 97 / 100 := by
    rw [score_loop_fst]
    show overall_of featApproved = 97 / 100
    have h1 : code_quality_score featApproved = 1 := by
      norm_num [code_quality_score, featApproved, min_def]
    have h2 : content_quality_score featApproved = 1 := by
      norm_num [content_quality_score, featApproved, min_def]
    have h3 : categorization_score featApproved = 0.8 := rfl
    unfold overall_of
    rw [h1, h2, h3, weightOf_values.1, weightOf_values.2.1, weightOf_values.2.2.1,
      weightOf_values.2.2.2.1, weightOf_values.2.2.2.2.1, weightOf_values.2.2.2.2.2]
    norm_num [featApproved]
  have ha : (score_loop ⟨0, 0, 0⟩ featApproved).1.approval_decision = "approved" :=
    h.2.1.mpr (by rw [hov]; norm_num)
  exact ⟨ha, h.2.2.2.2.1 ha⟩

/-- C8 counterexample: __init__ performs no startup assertion — even for
a weight table summing to 2 and thresholds ordered with rejection (0.60)
not below approval (0.35), construction succeeds instead of refusing to
run. -/
theorem C8_counterexample :
    scorer_init [("popularity", 2)] 0.35 0.60 =
      Except.ok { approved_count := 0, rejected_count := 0, review_count := 0 } ∧
    ([(("popularity" : String), (2 : ℚ))].map Prod.snd).sum ≠ 1 ∧
    ¬ ((0.60 : ℚ) < 0.35) := by
  refine ⟨rfl, by norm_num, by norm_num⟩

/-- C8 amended: the shipped configuration does satisfy both invariants —
the six weights sum to 1 and the rejection threshold is strictly below the
approval threshold — but the implementation never asserts them: __init__
unconditionally initialises the counters and succeeds for every weight
table and threshold pair. -/
theorem C8_amended_config_invariants :
    (WEIGHTS.map Prod.snd).sum = 1 ∧
    REJECTION_THRESHOLD < APPROVAL_THRESHOLD ∧
    (∀ weights approval rejection, scorer_init weights approval rejection =
      Except.ok { approved_count := 0, rejected_count := 0, review_count := 0 }) := by
  refine ⟨by norm_num [WEIGHTS], by norm_num [REJECTION_THRESHOLD, APPROVAL_THRESHOLD],
    fun weights approval rejection => rfl⟩

/-- Feature record whose loop_id depends on the hash seed, used by the C2
counterexample and witness. -/
def hashSensitiveDiscovery : Discovery :=
  { source_url := "https://example.com/a"
    source_type := "github"
    content_type := "text"
    raw_content := ""
    metadata := [("stars", "10")]
    discovery_timestamp := "2025-10-17" }

/-- C2 counterexample: extract_features is not a function of the
discovery record alone — the derived loop_id embeds the Python string
hash, which varies with the per-process hash seed, so two runs whose hash
functions differ on the URL produce different feature records for the
same input. -/
theorem C2_counterexample :
    extract_features (fun _ => none) (fun _ => 0) hashSensitiveDiscovery ≠
      extract_features (fun _ => none) (fun _ => 1) hashSensitiveDiscovery := by
  intro h
  have h2 := congrArg (Except.map (fun f => ExtractedFeatures.loop_id f)) h
  have e1 : Except.map (fun f => ExtractedFeatures.loop_id f)
      (extract_features (fun _ => none) (fun _ => 0) hashSensitiveDiscovery) =
      Except.ok "github_0" := rfl
  have e2 : Except.map (fun f => ExtractedFeatures.loop_id f)
      (extract_features (fun _ => none) (fun _ => 1) hashSensitiveDiscovery) =
      Except.ok "github_1" := rfl
  rw [e1, e2] at h2
  simp at h2

/-- Copy of a feature record with the loop_id blanked, to compare
extraction results across hash functions. -/
def eraseLoopId (f : ExtractedFeatures) : ExtractedFeatures :=
  { f with loop_id := "" }

/-- C2 amended: extraction and scoring are deterministic up to the hash
seed — every field of the feature record except loop_id is a function of
the discovery record alone; the full record is determined by the record
together with hash(source_url) mod 1000000; and score_loop output depends
only on the feature record, not on the instance counters. Byte-for-byte
equality across separate runs holds only when the hash function agrees on
the URL (e.g. a fixed PYTHONHASHSEED). -/
theorem C2_deterministic_up_to_hash :
    (∀ parse h₁ h₂ d, Except.map eraseLoopId (extract_features parse h₁ d) =
        Except.map eraseLoopId (extract_features parse h₂ d)) ∧
    (∀ parse h₁ h₂ (d : Discovery),
        (h₁ d.source_url).emod 1000000 = (h₂ d.source_url).emod 1000000 →
        extract_features parse h₁ d = extract_features parse h₂ d) ∧
    (∀ st₁ st₂ f, (score_loop st₁ f).1 = (score_loop st₂ f).1) := by
  refine ⟨?_, ?_, ?_⟩
  · intro parse h₁ h₂ d
    unfold extract_features
    cases calculate_popularity_score d.metadata d.source_type <;>
      simp [Except.map, eraseLoopId]
  · intro parse h₁ h₂ d h
    unfold extract_features
    rw [h]
  · intro st₁ st₂ f
    rw [score_loop_fst, score_loop_fst]

theorem C2_deterministic_up_to_hash_witness :
    extract_features (fun _ => none) (fun _ => (5 : Int)) hashSensitiveDiscovery =
      extract_features (fun _ => none) (fun _ => (1000005 : Int)) hashSensitiveDiscovery :=
  C2_deterministic_up_to_hash.2.1 _ _ _ _ (by decide)

/-!
Bounds helpers for the complexity and popularity signals.
-/

theorem kindWeight_nonneg (k : PyKind) : 0 ≤ kindWeight k := by
  cases k <;> norm_num [kindWeight]

theorem calculate_complexity_bounds (parse : String → Option (List PyKind))
    (code language : String) :
    0 ≤ calculate_complexity parse code language ∧
    calculate_complexity parse code language ≤ 1 := by
  have hl : (0 : ℚ) ≤ (count_lines code : ℚ) / 100 := by positivity
  unfold calculate_complexity
  split
  · exact ⟨le_min hl zero_le_one, min_le_right _ _⟩
  · split
    · rename_i nodes _
      have hs : (0 : ℚ) ≤ ((nodes.map kindWeight).sum) / 50 := by
        have : (0 : ℚ) ≤ (nodes.map kindWeight).sum := by
          apply List.sum_nonneg
          intro x hx
          rcases List.mem_map.mp hx with ⟨k, _, rfl⟩
          exact kindWeight_nonneg k
        positivity
      exact ⟨le_min hs zero_le_one, min_le_right _ _⟩
    · exact ⟨le_min hl zero_le_one, min_le_right _ _⟩

/-- C4: calculate_complexity is total (never raises) and always in [0,1];
on python with a successful parse it is the weighted node sum (weights 2
for functions, 3 for classes, 1.5 for loops, 1 for conditionals, 2 for
try blocks) divided by 50 and clamped to 1; on a non-python language or a
failed parse it is min(non-empty-line-count / 100, 1). -/
theorem C4_complexity_safety (parse : String → Option (List PyKind))
    (code language : String) :
    (0 ≤ calculate_complexity parse code language ∧
     calculate_complexity parse code language ≤ 1) ∧
    (kindWeight .functionDef = 2 ∧ kindWeight .classDef = 3 ∧
     kindWeight .forStmt = 1.5 ∧ kindWeight .whileStmt = 1.5 ∧
     kindWeight .ifStmt = 1 ∧ kindWeight .tryStmt = 2) ∧
    (∀ nodes, language = "python" → parse code = some nodes →
      calculate_complexity parse code language =
        min (((nodes.map kindWeight).sum) / 50) 1) ∧
    ((language ≠ "python" ∨ parse code = none) →
      calculate_complexity parse code language =
        min ((count_lines code : ℚ) / 100) 1) := by
  refine ⟨calculate_complexity_bounds parse code language,
    ⟨rfl, rfl, rfl, rfl, rfl, rfl⟩, ?_, ?_⟩
  · intro nodes hlang hp
    subst hlang
    simp [calculate_complexity, hp]
  · intro h
    rcases h with h | h
    · simp [calculate_complexity, bne_iff_ne, h]
    · by_cases hlang : language = "python"
      · subst hlang
        simp [calculate_complexity, h]
      · simp [calculate_complexity, bne_iff_ne, hlang]

theorem C4_complexity_safety_witness :
    calculate_complexity (fun _ => some [PyKind.functionDef, PyKind.other]) "x = 1" "python" =
      min ((([PyKind.functionDef, PyKind.other].map kindWeight).sum) / 50) 1 ∧
    calculate_complexity (fun _ => none) "a\nb" "javascript" =
      min ((count_lines "a\nb" : ℚ) / 100) 1 :=
  ⟨(C4_complexity_safety (fun _ => some [PyKind.functionDef, PyKind.other])
      "x = 1" "python").2.2.1 [PyKind.functionDef, PyKind.other] rfl rfl,
   (C4_complexity_safety (fun _ => none) "a\nb" "javascript").2.2.2
      (Or.inl (by decide))⟩

/-- C5 counterexample: the github branch raises IndexError on a stars
string with no whitespace token (here the empty string), instead of
degrading to 0 — contradicting the claim that calculate_popularity_score
never raises for every metadata mapping. -/
theorem C5_counterexample :
    calculate_popularity_score [("stars", "")] "github" =
      Except.error "IndexError: list index out of range" := rfl

/-- C5 amended: for the github source type with a stars string that has
at least one whitespace token, the score is min(digits-of-first-token /
1000, 1), in [0,1]; for reddit the score is min(upvotes / 100, 1) with
non-digit input degrading to 0, never raising; any other source type
yields exactly 0.5; and popularity({upvotes: 50}, reddit) = 0.5 exactly.
The only raising input is a github stars string with no token (empty or
all-whitespace), per the counterexample. -/
theorem C5_amended_popularity :
    (∀ metadata tok rest, pySplitWs (metaGet metadata "stars" "0") = tok :: rest →
      calculate_popularity_score metadata "github" =
        Except.ok (min ((starsOfToken tok : ℚ) / 1000) 1) ∧
      0 ≤ min ((starsOfToken tok : ℚ) / 1000) 1 ∧
      min ((starsOfToken tok : ℚ) / 1000) 1 ≤ 1) ∧
    (∀ metadata, calculate_popularity_score metadata "reddit" =
        Except.ok (min ((upvotesOf (metaGet metadata "upvotes" "0") : ℚ) / 100) 1) ∧
      0 ≤ min ((upvotesOf (metaGet metadata "upvotes" "0") : ℚ) / 100) 1 ∧
      min ((upvotesOf (metaGet metadata "upvotes" "0") : ℚ) / 100) 1 ≤ 1) ∧
    (∀ metadata source_type, source_type ≠ "github" → source_type ≠ "reddit" →
      calculate_popularity_score metadata source_type = Except.ok 0.5) ∧
    (∀ s, ¬ pyIsDigitStr s = true → upvotesOf s = 0) ∧
    (∀ tok, (tok.toList.filter Char.isDigit).isEmpty = true → starsOfToken tok = 0) ∧
    calculate_popularity_score [("upvotes", "50")] "reddit" = Except.ok 0.5 := by
  refine ⟨?_, ?_, ?_, ?_, ?_, ?_⟩
  · intro metadata tok rest h
    refine ⟨?_, le_min (by positivity) zero_le_one, min_le_right _ _⟩
    have e : calculate_popularity_score metadata "github" =
        match pySplitWs (metaGet metadata "stars" "0") with
        | [] => Except.error "IndexError: list index out of range"
        | t :: _ => Except.ok (min ((starsOfToken t : ℚ) / 1000) 1) := rfl
    rw [e, h]
  · intro metadata
    exact ⟨rfl, le_min (by positivity) zero_le_one, min_le_right _ _⟩
  · intro metadata source_type hg hr
    simp [calculate_popularity_score, beq_iff_eq, hg, hr]
  · intro s h
    simp [upvotesOf, h]
  · intro tok h
    unfold starsOfToken
    exact if_pos h
  · have base : calculate_popularity_score [("upvotes", "50")] "reddit" =
        Except.ok (min ((upvotesOf "50" : ℚ) / 100) 1) := rfl
    rw [base, show upvotesOf "50" = 50 from rfl]
    exact congrArg Except.ok (by push_cast; norm_num [min_def])

theorem C5_amended_popularity_witness :
    calculate_popularity_score [("stars", "7 stars")] "github" =
      Except.ok (min ((starsOfToken "7" : ℚ) / 1000) 1) ∧
    calculate_popularity_score [] "hackernews" = Except.ok 0.5 ∧
    upvotesOf "xx" = 0 ∧
    starsOfToken "weekly" = 0 :=
  ⟨(C5_amended_popularity.1 [("stars", "7 stars")] "7" ["stars"] rfl).1,
   C5_amended_popularity.2.2.1 [] "hackernews" (by decide) (by decide),
   C5_amended_popularity.2.2.2.1 "xx" (by decide),
   C5_amended_popularity.2.2.2.2.1 "weekly" (by decide)⟩

/-!
Range lemmas for the normalized signals (claim C3).
-/

theorem popularity_ok_bounds {metadata : List (String × String)} {source_type : String}
    {q : ℚ} (h : calculate_popularity_score metadata source_type = Except.ok q) :
    0 ≤ q ∧ q ≤ 1 := by
  unfold calculate_popularity_score at h
  split at h
  · dsimp only at h
    split at h
    · cases h
    · simp only [Except.ok.injEq] at h
      subst h
      exact ⟨le_min (by positivity) zero_le_one, min_le_right _ _⟩
  · split at h
    · simp only [Except.ok.injEq] at h
      subst h
      exact ⟨le_min (by positivity) zero_le_one, min_le_right _ _⟩
    · simp only [Except.ok.injEq] at h
      subst h
      norm_num

theorem author_reputation_bounds (metadata : List (String × String)) (source_type : String) :
    0 ≤ calculate_author_reputation metadata source_type ∧
    calculate_author_reputation metadata source_type ≤ 1 := by
  unfold calculate_author_reputation
  dsimp only
  split <;> norm_num

theorem estimate_value_bounds {p cc ar : ℚ} (hp : 0 ≤ p) (hcc : 0 ≤ cc) (har : 0 ≤ ar)
    (hc : Bool) : 0 ≤ estimate_value p cc ar hc ∧ estimate_value p cc ar hc ≤ 1 := by
  unfold estimate_value
  have hi : (0 : ℚ) ≤ (if hc = true then (1 : ℚ) else 0.3) := by split <;> norm_num
  refine ⟨le_min (by nlinarith) zero_le_one, min_le_right _ _⟩

theorem code_quality_bounds (f : Features) (h0 : 0 ≤ f.code_complexity)
    (h1 : f.code_complexity ≤ 1) :
    0 ≤ code_quality_score f ∧ code_quality_score f ≤ 1 := by
  unfold code_quality_score
  split
  · have hm : (0 : ℚ) ≤ min ((f.code_lines : ℚ) / 100) 1 :=
      le_min (by positivity) zero_le_one
    exact ⟨le_min (by nlinarith) zero_le_one, min_le_right _ _⟩
  · norm_num

theorem content_quality_bounds (f : Features) :
    0 ≤ content_quality_score f ∧ content_quality_score f ≤ 1 := by
  unfold content_quality_score
  refine ⟨le_min ?_ zero_le_one, min_le_right _ _⟩
  split_ifs <;> norm_num

theorem categorization_bounds (f : Features) :
    0 ≤ categorization_score f ∧ categorization_score f ≤ 1 := by
  unfold categorization_score
  split_ifs <;> norm_num

theorem overall_of_bounds (f : Features)
    (hp0 : 0 ≤ f.popularity_score) (hp1 : f.popularity_score ≤ 1)
    (hcc0 : 0 ≤ f.code_complexity) (hcc1 : f.code_complexity ≤ 1)
    (hr0 : 0 ≤ f.recency_score) (hr1 : f.recency_score ≤ 1)
    (ha0 : 0 ≤ f.author_reputation) (ha1 : f.author_reputation ≤ 1) :
    0 ≤ overall_of f ∧ overall_of f ≤ 1 := by
  have hcq := code_quality_bounds f hcc0 hcc1
  have hct := content_quality_bounds f
  have hcat := categorization_bounds f
  unfold overall_of
  rw [weightOf_values.1, weightOf_values.2.1, weightOf_values.2.2.1,
    weightOf_values.2.2.2.1, weightOf_values.2.2.2.2.1, weightOf_values.2.2.2.2.2]
  constructor <;> nlinarith [hcq.1, hcq.2, hct.1, hct.2, hcat.1, hcat.2]

theorem confidence_of_bounds {o : ℚ} (h0 : 0 ≤ o) :
    0 ≤ confidence_of o ∧ confidence_of o ≤ 1 := by
  unfold confidence_of
  split_ifs with h1 h2
  · refine ⟨le_min (div_nonneg ?_ ?_) zero_le_one, min_le_right _ _⟩
    · have := h1
      simp only [APPROVAL_THRESHOLD] at this
      linarith
    · norm_num [APPROVAL_THRESHOLD]
  · refine ⟨le_min (div_nonneg ?_ ?_) zero_le_one, min_le_right _ _⟩
    · have := h2
      simp only [REJECTION_THRESHOLD] at this
      linarith
    · norm_num [REJECTION_THRESHOLD]
  · norm_num

/-- C3: for every discovery record whose extraction succeeds, the five
normalized signals of the produced feature record (popularity, author
reputation, recency, code complexity, estimated value) lie in [0,1]; and
for every feature record whose normalized signals lie in [0,1], the
quality score produced by score_loop has overall_score in [0,1] and
confidence in [0,1]. -/
theorem C3_ranges :
    (∀ parse pyHash d f, extract_features parse pyHash d = Except.ok f →
      (0 ≤ f.popularity_score ∧ f.popularity_score ≤ 1) ∧
      (0 ≤ f.author_reputation ∧ f.author_reputation ≤ 1) ∧
      (0 ≤ f.recency_score ∧ f.recency_score ≤ 1) ∧
      (0 ≤ f.code_complexity ∧ f.code_complexity ≤ 1) ∧
      (0 ≤ f.estimated_value ∧ f.estimated_value ≤ 1)) ∧
    (∀ st (f : Features),
      0 ≤ f.popularity_score → f.popularity_score ≤ 1 →
      0 ≤ f.code_complexity → f.code_complexity ≤ 1 →
      0 ≤ f.recency_score → f.recency_score ≤ 1 →
      0 ≤ f.author_reputation → f.author_reputation ≤ 1 →
      (0 ≤ (score_loop st f).1.overall_score ∧ (score_loop st f).1.overall_score ≤ 1) ∧
      (0 ≤ (score_loop st f).1.confidence ∧ (score_loop st f).1.confidence ≤ 1)) := by
  constructor
  · intro parse pyHash d f hok
    unfold extract_features at hok
    cases hpop : calculate_popularity_score d.metadata d.source_type with
    | error err =>
      rw [hpop] at hok
      cases hok
    | ok p =>
      rw [hpop] at hok
      simp only [Except.ok.injEq] at hok
      subst hok
      have hpo := popularity_ok_bounds hpop
      have har := author_reputation_bounds d.metadata d.source_type
      refine ⟨hpo, har, by norm_num [calculate_recency_score], ?_, ?_⟩
      · constructor
        · split
          · exact (calculate_complexity_bounds _ _ _).1
          · norm_num
        · split
          · exact (calculate_complexity_bounds _ _ _).2
          · norm_num
      · refine estimate_value_bounds hpo.1 ?_ har.1 _
        split
        · exact (calculate_complexity_bounds _ _ _).1
        · norm_num
  · intro st f hp0 hp1 hcc0 hcc1 hr0 hr1 ha0 ha1
    rw [score_loop_fst]
    have hov := overall_of_bounds f hp0 hp1 hcc0 hcc1 hr0 hr1 ha0 ha1
    exact ⟨hov, confidence_of_bounds hov.1⟩

/-- Discovery record with an unrecognised source type, used by the C3
witness: extraction succeeds and every signal is a direct constant. -/
def c3raw : Discovery :=
  { source_url := "u", source_type := "rss", content_type := "", raw_content := "",
    metadata := [("author", "alice")], discovery_timestamp := "t" }

/-- Feature record extract_features produces for c3raw (with parse
returning none and hash constantly 0). -/
def c3feat : ExtractedFeatures :=
  { loop_id := "rss_0", source_url := "u", source_type := "rss", has_code := false,
    code_language := none, code_complexity := 0, code_lines := 0, title_length := 0,
    description_length := 0, has_tutorial := false, has_documentation := false,
    popularity_score := 0.5, author_reputation := 0.6, recency_score := 1,
    primary_category := "general", secondary_categories := [], keywords := [],
    automation_type := "general", complexity_level := "intermediate",
    estimated_value := estimate_value 0.5 0 0.6 false }

theorem C3_ranges_witness :
    ((0 ≤ c3feat.popularity_score ∧ c3feat.popularity_score ≤ 1) ∧
     (0 ≤ c3feat.author_reputation ∧ c3feat.author_reputation ≤ 1) ∧
     (0 ≤ c3feat.recency_score ∧ c3feat.recency_score ≤ 1) ∧
     (0 ≤ c3feat.code_complexity ∧ c3feat.code_complexity ≤ 1) ∧
     (0 ≤ c3feat.estimated_value ∧ c3feat.estimated_value ≤ 1)) ∧
    ((0 ≤ (score_loop ⟨0, 0, 0⟩ featApproved).1.overall_score ∧
      (score_loop ⟨0, 0, 0⟩ featApproved).1.overall_score ≤ 1) ∧
     (0 ≤ (score_loop ⟨0, 0, 0⟩ featApproved).1.confidence ∧
      (score_loop ⟨0, 0, 0⟩ featApproved).1.confidence ≤ 1)) := by
  constructor
  · exact C3_ranges.1 (fun _ => none) (fun _ => 0) c3raw c3feat rfl
  · exact C3_ranges.2 ⟨0, 0, 0⟩ featApproved
      (by norm_num [featApproved]) (by norm_num [featApproved])
      (by norm_num [featApproved]) (by norm_num [featApproved])
      (by norm_num [featApproved]) (by norm_num [featApproved])
      (by norm_num [featApproved]) (by norm_num [featApproved])

/-!
Batch isolation (claim C6).
-/

theorem process_discoveries_all_ok (parse : String → Option (List PyKind))
    (pyHash : String → Int) (ds : List RawDiscovery)
    (h : ∀ d ∈ ds, (extract_features_raw parse pyHash d).isOk = true) :
    (process_discoveries parse pyHash ds).1.length = ds.length ∧
    (process_discoveries parse pyHash ds).2 = [] := by
  induction ds with
  | nil => exact ⟨rfl, rfl⟩
  | cons d rest ih =>
    have hd := h d (List.mem_cons_self _ _)
    cases hx : extract_features_raw parse pyHash d with
    | ok f =>
      have hrest := ih (fun x hx' => h x (List.mem_cons_of_mem _ hx'))
      simp [process_discoveries, hx, hrest.1, hrest.2]
    | error e =>
      rw [hx] at hd
      simp [Except.toBool] at hd

theorem score_all_loops_all_ok (fs : List RawFeatures)
    (h : ∀ rf ∈ fs, (parseFeatures rf).isOk = true) :
    ∀ st, (score_all_loops st fs).1.length = fs.length ∧
      (score_all_loops st fs).2.1 = [] := by
  induction fs with
  | nil => intro st; exact ⟨rfl, rfl⟩
  | cons rf rest ih =>
    intro st
    have hd := h rf (List.mem_cons_self _ _)
    cases hx : parseFeatures rf with
    | ok f =>
      have hs : score_loop_raw st rf = Except.ok (score_loop st f) := by
        simp [score_loop_raw, hx, Except.map]
      have hrest := ih (fun x hx' => h x (List.mem_cons_of_mem _ hx')) (score_loop st f).2
      simp [score_all_loops, hs, hrest.1, hrest.2]
    | error e =>
      rw [hx] at hd
      simp [Except.toBool] at hd

/-- C6: injecting exactly one failing record into an otherwise valid
batch yields the N-1 successful outputs in input order plus one recorded
error, not a batch failure — for process_discoveries, and likewise for
score_all_loops (whatever the counter state). -/
theorem C6_batch_isolation :
    (∀ parse pyHash (pre post : List RawDiscovery) (bad : RawDiscovery),
      (∀ d ∈ pre, (extract_features_raw parse pyHash d).isOk = true) →
      (extract_features_raw parse pyHash bad).isOk = false →
      (∀ d ∈ post, (extract_features_raw parse pyHash d).isOk = true) →
      (process_discoveries parse pyHash (pre ++ bad :: post)).1.length =
        (pre ++ bad :: post).length - 1 ∧
      (process_discoveries parse pyHash (pre ++ bad :: post)).2.length = 1 ∧
      (process_discoveries parse pyHash (pre ++ bad :: post)).1 =
        (process_discoveries parse pyHash pre).1 ++
          (process_discoveries parse pyHash post).1) ∧
    (∀ (pre post : List RawFeatures) (bad : RawFeatures),
      (∀ rf ∈ pre, (parseFeatures rf).isOk = true) →
      (parseFeatures bad).isOk = false →
      (∀ rf ∈ post, (parseFeatures rf).isOk = true) →
      ∀ st, (score_all_loops st (pre ++ bad :: post)).1.length =
        (pre ++ bad :: post).length - 1 ∧
      (score_all_loops st (pre ++ bad :: post)).2.1.length = 1) := by
  constructor
  · intro parse pyHash pre post bad hpre hbad hpost
    induction pre with
    | nil =>
      cases hb : extract_features_raw parse pyHash bad with
      | ok f =>
        rw [hb] at hbad
        simp [Except.toBool] at hbad
      | error e =>
        have hp := process_discoveries_all_ok parse pyHash post hpost
        simp [process_discoveries, hb, hp.1, hp.2]
    | cons d rest ih =>
      have hd := hpre d (List.mem_cons_self _ _)
      cases hx : extract_features_raw parse pyHash d with
      | ok f =>
        have hrec := ih (fun x hx' => hpre x (List.mem_cons_of_mem _ hx'))
        have hlen : (rest ++ bad :: post).length = rest.length + post.length + 1 := by
          simp; omega
        constructor
        · simp only [List.cons_append, process_discoveries, hx]
          simp [hrec.1]
          omega
        constructor
        · simp only [List.cons_append, process_discoveries, hx]
          simpa using hrec.2.1
        · simp only [List.cons_append, process_discoveries, hx]
          simp [hrec.2.2]
      | error e =>
        rw [hx] at hd
        simp [Except.toBool] at hd
  · intro pre post bad hpre hbad hpost
    induction pre with
    | nil =>
      intro st
      cases hb : parseFeatures bad with
      | ok f =>
        rw [hb] at hbad
        simp [Except.toBool] at hbad
      | error e =>
        have hsb : score_loop_raw st bad = Except.error e := by
          simp [score_loop_raw, hb, Except.map]
        have hp := score_all_loops_all_ok post hpost st
        simp [score_all_loops, hsb, hp.1, hp.2]
    | cons rf rest ih =>
      intro st
      have hd := hpre rf (List.mem_cons_self _ _)
      cases hx : parseFeatures rf with
      | ok f =>
        have hs : score_loop_raw st rf = Except.ok (score_loop st f) := by
          simp [score_loop_raw, hx, Except.map]
        have hrec := ih (fun x hx' => hpre x (List.mem_cons_of_mem _ hx'))
          (score_loop st f).2
        constructor
        · simp only [List.cons_append, score_all_loops, hs]
          simp [hrec.1]
          omega
        · simp only [List.cons_append, score_all_loops, hs]
          simpa using hrec.2
      | error e =>
        rw [hx] at hd
        simp [Except.toBool] at hd

/-- Well-formed raw discovery used by the C6 witness. -/
def rawGood : RawDiscovery :=
  { source_url := some "u", source_type := some "rss", content_type := some "",
    raw_content := some "", metadata := some [], discovery_timestamp := some "t" }

/-- Malformed raw discovery (missing source_url) used by the C6 witness. -/
def rawBad : RawDiscovery :=
  { rawGood with source_url := none }

/-- Well-formed raw feature object used by the C6 witness; has_code is
false, so the conditionally-subscripted code fields may be absent. -/
def rawFeatGood : RawFeatures :=
  { loop_id := some "x", popularity_score := some 0, has_code := some false,
    code_complexity := none, code_lines := none, description_length := some 0,
    has_tutorial := some false, has_documentation := some false,
    primary_category := some "general", recency_score := some 0,
    author_reputation := some 0 }

/-- Malformed raw feature object (missing loop_id) used by the C6
witness. -/
def rawFeatBad : RawFeatures :=
  { rawFeatGood with loop_id := none }

theorem C6_batch_isolation_witness :
    (process_discoveries (fun _ => none) (fun _ => 0) [rawGood, rawBad, rawGood]).1.length = 2 ∧
    (process_discoveries (fun _ => none) (fun _ => 0) [rawGood, rawBad, rawGood]).2.length = 1 ∧
    (score_all_loops ⟨0, 0, 0⟩ [rawFeatGood, rawFeatBad]).1.length = 1 ∧
    (score_all_loops ⟨0, 0, 0⟩ [rawFeatGood, rawFeatBad]).2.1.length = 1 := by
  have h1 := C6_batch_isolation.1 (fun _ => none) (fun _ => 0) [rawGood] [rawGood] rawBad
    (by intro d hd; rw [List.mem_singleton] at hd; subst hd; rfl)
    rfl
    (by intro d hd; rw [List.mem_singleton] at hd; subst hd; rfl)
  have h2 := C6_batch_isolation.2 [rawFeatGood] [] rawFeatBad
    (by intro rf hrf; rw [List.mem_singleton] at hrf; subst hrf; rfl)
    rfl
    (by intro rf hrf; cases hrf)
    ⟨0, 0, 0⟩
  exact ⟨h1.1, h1.2.1, h2.1, h2.2⟩

/-!
Filtering of approved loops (claim C10).
-/

/-- Approved score whose loop_id matches no feature record (C10). -/
def c10score1 : QualityScore :=
  { loop_id := "github_1", overall_score := 1, approval_decision := "approved",
    confidence := 1, reasoning := [] }

/-- Approved score whose loop_id matches a feature record but no
discovery (C10). -/
def c10score2 : QualityScore :=
  { loop_id := "github_2", overall_score := 1, approval_decision := "approved",
    confidence := 1, reasoning := [] }

/-- Feature record for loop_id github_2 (C10). -/
def c10feature : ExtractedFeatures :=
  { c3feat with loop_id := "github_2" }

/-- C10: an approved score whose identifier matches no feature record is
silently dropped from the approved output (the none branch simply recurses
— no log, no error), while an approved bundle whose identifier matches no
discovery URL-hash is still emitted with discovery = none; concretely, two
approved decisions can yield a single emitted bundle whose discovery slot
is empty. -/
theorem C10_filter_approved :
    (∀ pyHash (features : List ExtractedFeatures) (discoveries : List Discovery)
       (s : QualityScore) (rest : List QualityScore),
      s.approval_decision = "approved" → featuresById features s.loop_id = none →
      filter_approved_loops pyHash features discoveries (s :: rest) =
        filter_approved_loops pyHash features discoveries rest) ∧
    (filter_approved_loops (fun _ => 0) [c10feature] [] [c10score1, c10score2] =
       Except.ok [{ loop_id := "github_2", score := c10score2, features := c10feature,
                    discovery := none }] ∧
     ([c10score1, c10score2].filter
        (fun s => s.approval_decision == "approved")).length = 2) := by
  refine ⟨?_, rfl, rfl⟩
  intro pyHash features discoveries s rest h1 h2
  simp [filter_approved_loops, h1, h2]

theorem C10_filter_approved_witness :
    filter_approved_loops (fun _ => 0) [] [] [c10score1] =
      filter_approved_loops (fun _ => 0) [] [] [] :=
  C10_filter_approved.1 (fun _ => 0) [] [] c10score1 [] rfl rfl

/-!
Properties of the stable descending sort (claim C9).
-/

theorem mem_insertByDesc {α : Type} {key : α → Nat} {x a : α} : ∀ {l : List α},
    a ∈ insertByDesc key x l ↔ a = x ∨ a ∈ l := by
  intro l
  induction l with
  | nil => simp [insertByDesc]
  | cons y ys ih =>
    unfold insertByDesc
    split
    · simp [List.mem_cons]
    · simp only [List.mem_cons, ih]
      tauto

theorem mem_sortByDesc {α : Type} {key : α → Nat} {a : α} : ∀ {l : List α},
    a ∈ sortByDesc key l ↔ a ∈ l := by
  intro l
  induction l with
  | nil => simp [sortByDesc]
  | cons x xs ih => simp [sortByDesc, mem_insertByDesc, ih, List.mem_cons]

theorem insertByDesc_ne_nil {α : Type} {key : α → Nat} {x : α} :
    ∀ (l : List α), insertByDesc key x l ≠ [] := by
  intro l
  cases l with
  | nil => simp [insertByDesc]
  | cons y ys =>
    unfold insertByDesc
    split <;> simp

theorem sortByDesc_eq_nil_iff {α : Type} {key : α → Nat} {l : List α} :
    sortByDesc key l = [] ↔ l = [] := by
  cases l with
  | nil => simp [sortByDesc]
  | cons x xs =>
    constructor
    · intro h
      exact absurd h (insertByDesc_ne_nil _)
    · intro h
      cases h

theorem pairwise_insertByDesc {α : Type} {key : α → Nat} {x : α} : ∀ {l : List α},
    List.Pairwise (fun a b => key b ≤ key a) l →
    List.Pairwise (fun a b => key b ≤ key a) (insertByDesc key x l) := by
  intro l hl
  induction l with
  | nil => simp [insertByDesc]
  | cons y ys ih =>
    rcases List.pairwise_cons.mp hl with ⟨hy, hys⟩
    unfold insertByDesc
    split
    · rename_i hxy
      refine List.pairwise_cons.mpr ⟨?_, hl⟩
      intro b hb
      rcases List.mem_cons.mp hb with rfl | hb
      · exact hxy
      · exact le_trans (hy b hb) hxy
    · rename_i hxy
      refine List.pairwise_cons.mpr ⟨?_, ih hys⟩
      intro b hb
      rcases mem_insertByDesc.mp hb with rfl | hb
      · exact le_of_lt (Nat.lt_of_not_le hxy)
      · exact hy b hb

theorem pairwise_sortByDesc {α : Type} (key : α → Nat) : ∀ (l : List α),
    List.Pairwise (fun a b => key b ≤ key a) (sortByDesc key l) := by
  intro l
  induction l with
  | nil => simp [sortByDesc]
  | cons x xs ih => exact pairwise_insertByDesc ih

theorem sortByDesc_head_ge {α : Type} {key : α → Nat} {l : List α} {h : α} {t : List α}
    (e : sortByDesc key l = h :: t) : ∀ a ∈ l, key a ≤ key h := by
  intro a ha
  have hmem : a ∈ h :: t := by
    rw [← e]
    exact mem_sortByDesc.mpr ha
  rcases List.mem_cons.mp hmem with rfl | hmem
  · exact le_refl _
  · have hp := pairwise_sortByDesc key l
    rw [e] at hp
    exact (List.pairwise_cons.mp hp).1 a hmem

theorem find?_congr {α : Type} {p q : α → Bool} : ∀ {l : List α},
    (∀ a ∈ l, p a = q a) → l.find? p = l.find? q := by
  intro l
  induction l with
  | nil => intro _; rfl
  | cons x xs ih =>
    intro h
    have hx := h x (List.mem_cons_self _ _)
    rw [List.find?_cons, List.find?_cons, hx]
    cases hq : q x
    · exact ih (fun a ha => h a (List.mem_cons_of_mem _ ha))
    · rfl

theorem sortByDesc_head_first_max {α : Type} {key : α → Nat} : ∀ {l : List α} {h : α}
    {t : List α}, sortByDesc key l = h :: t →
    l.find? (fun a => decide (∀ b ∈ l, key b ≤ key a)) = some h := by
  intro l
  induction l with
  | nil => intro h t e; cases e
  | cons x xs ih =>
    intro h t e
    rcases hxs : sortByDesc key xs with _ | ⟨h', t'⟩
    · have hxsnil : xs = [] := sortByDesc_eq_nil_iff.mp hxs
      subst hxsnil
      simp only [sortByDesc, insertByDesc] at e
      injection e with e1 e2
      subst e1
      have hall : ∀ b ∈ [x], key b ≤ key x := by
        intro b hb
        rw [List.mem_singleton] at hb
        subst hb
        exact le_refl _
      rw [List.find?_cons, decide_eq_true hall]
    · have e' : sortByDesc key (x :: xs) = insertByDesc key x (h' :: t') := by
        simp [sortByDesc, hxs]
      rw [e'] at e
      unfold insertByDesc at e
      by_cases hcmp : key h' ≤ key x
      · rw [if_pos hcmp] at e
        injection e with e1 e2
        subst e1
        have hall : ∀ b ∈ x :: xs, key b ≤ key x := by
          intro b hb
          rcases List.mem_cons.mp hb with rfl | hb
          · exact le_refl _
          · exact le_trans (sortByDesc_head_ge hxs b hb) hcmp
        rw [List.find?_cons, decide_eq_true hall]
      · rw [if_neg hcmp] at e
        injection e with e1 e2
        subst e1
        have hx_lt : key x < key h' := Nat.lt_of_not_le hcmp
        have hmem : h' ∈ xs := mem_sortByDesc.mp (by rw [hxs]; exact List.mem_cons_self _ _)
        have hpredx : decide (∀ b ∈ x :: xs, key b ≤ key x) = false := by
          apply decide_eq_false
          intro hall
          exact absurd (hall h' (List.mem_cons_of_mem _ hmem)) (Nat.not_le_of_lt hx_lt)
        rw [List.find?_cons, hpredx]
        have hcong : ∀ a ∈ xs,
            (fun a => decide (∀ b ∈ x :: xs, key b ≤ key a)) a =
            (fun a => decide (∀ b ∈ xs, key b ≤ key a)) a := by
          intro a ha
          simp only [decide_eq_decide]
          constructor
          · intro hall b hb
            exact hall b (List.mem_cons_of_mem _ hb)
          · intro hall b hb
            rcases List.mem_cons.mp hb with rfl | hb
            · have hha : key h' ≤ key a := hall h' hmem
              omega
            · exact hall b hb
        rw [find?_congr hcong]
        exact ih hxs

/-- C9: categorize returns ("general", []) exactly when no taxonomy
category has a positive keyword-hit count; otherwise the primary category
is the first (in taxonomy order) category of maximal score, and the
secondary list names at most 3 further scored categories in descending
score order, each scoring no more than the primary; and the spec example
classifies as automation. -/
theorem C9_categorize :
    (∀ text,
      (categoryScores (pyLowerStr text) = [] → categorize text = ("general", [])) ∧
      (categoryScores (pyLowerStr text) ≠ [] →
        ∃ s secPairs,
          (categoryScores (pyLowerStr text)).find?
            (fun p => decide (∀ q ∈ categoryScores (pyLowerStr text), q.2 ≤ p.2)) =
            some ((categorize text).1, s) ∧
          (categorize text).2 = secPairs.map Prod.fst ∧
          secPairs.length ≤ 3 ∧
          (∀ p ∈ secPairs, p ∈ categoryScores (pyLowerStr text) ∧ p.2 ≤ s) ∧
          List.Chain' (fun a b => b.2 ≤ a.2) secPairs)) ∧
    (categorize "Automate your workflow with this script").1 = "automation" := by
  constructor
  · intro text
    constructor
    · intro h
      simp [categorize, h, sortByDesc]
    · intro h
      obtain ⟨top, rest, e⟩ : ∃ top rest,
          sortByDesc (fun p => p.2) (categoryScores (pyLowerStr text)) = top :: rest := by
        rcases hs : sortByDesc (fun p => p.2) (categoryScores (pyLowerStr text)) with _ | ⟨a, b⟩
        · exact absurd (sortByDesc_eq_nil_iff.mp hs) h
        · exact ⟨a, b, hs⟩
      have hcat : categorize text = (top.1, (rest.take 3).map Prod.fst) := by
        simp [categorize, e]
      have hpair := pairwise_sortByDesc (fun p : String × Nat => p.2)
        (categoryScores (pyLowerStr text))
      rw [e] at hpair
      refine ⟨top.2, rest.take 3, ?_, ?_, ?_, ?_, ?_⟩
      · rw [hcat]
        have hfm := sortByDesc_head_first_max e
        simpa using hfm
      · rw [hcat]
      · exact List.length_take_le _ _
      · intro p hp
        have hmem_rest : p ∈ rest := List.mem_of_mem_take hp
        refine ⟨mem_sortByDesc.mp (by rw [e]; exact List.mem_cons_of_mem _ hmem_rest), ?_⟩
        exact (List.pairwise_cons.mp hpair).1 p hmem_rest
      · have hrest : List.Pairwise (fun a b : String × Nat => b.2 ≤ a.2) rest :=
          (List.pairwise_cons.mp hpair).2
        exact (hrest.sublist (List.take_sublist _ _)).chain'
  · rfl

theorem C9_categorize_witness :
    categorize "zzz" = ("general", []) ∧
    (∃ s secPairs,
      (categoryScores (pyLowerStr "Automate your workflow with this script")).find?
        (fun p => decide (∀ q ∈ categoryScores
          (pyLowerStr "Automate your workflow with this script"), q.2 ≤ p.2)) =
        some ((categorize "Automate your workflow with this script").1, s) ∧
      (categorize "Automate your workflow with this script").2 = secPairs.map Prod.fst ∧
      secPairs.length ≤ 3 ∧
      (∀ p ∈ secPairs, p ∈ categoryScores
        (pyLowerStr "Automate your workflow with this script") ∧ p.2 ≤ s) ∧
      List.Chain' (fun a b => b.2 ≤ a.2) secPairs) :=
  ⟨(C9_categorize.1 "zzz").1 rfl,
   (C9_categorize.1 "Automate your workflow with this script").2 (by decide)⟩
